import Mathlib

/-!
Shallow embedding of the analysis engine of `n8n-timings.py`.

Conventions of the embedding:
* Instants (Python `datetime`) are modelled as `ℚ`, the number of seconds
  since the Unix epoch; all instants produced by the analyzer are UTC-aware,
  and ISO-8601 parsing of `startedAt`/`stoppedAt` is modelled by letting the
  document carry the denoted instant directly.
* Python floats are modelled by exact rationals `ℚ`.
* A JSON field that may be absent is an `Option`; Python truthiness tests on
  numbers (`if start_timestamp:`) are modelled by an explicit zero test, and
  truthiness of a possibly-`None` `datetime` by `Option.isSome`.
* Python dicts that the code iterates in insertion order are association
  lists.
-/

/-- One raw attempt object of `data.resultData.runData[node]`, as read by
`analyze_looped_execution`: `execution.get('startTime')`,
`execution.get('executionTime', 0)`, `execution.get('executionStatus',
'unknown')`, `execution.get('executionIndex', 0)`. -/
structure RawAttempt where
  startTime : Option Nat
  executionTime : Option Nat
  executionStatus : Option String
  executionIndex : Option Nat
deriving Repr, DecidableEq

/-- The `runData` mapping: node name → ordered list of raw attempts. -/
abbrev RunData := List (String × List RawAttempt)

/-- The `data.resultData` object; only its `runData` key is read. -/
structure ResultData where
  runData : Option RunData
deriving Repr, DecidableEq

/-- The `data` field of an execution document; only `resultData` is read. -/
structure DataField where
  resultData : Option ResultData
deriving Repr, DecidableEq

/-- An execution document as consumed by `analyze_looped_execution`.
`startedAt`/`stoppedAt` carry the instant denoted by the ISO-8601 string
(`datetime.fromisoformat` after the `Z` rewrite).  `data = none` covers both
an absent `data` key and a falsy (empty) `data` value: the source guard is
`if 'data' in execution_data and execution_data['data']`, and an empty dict
also fails the subsequent `'resultData' in data_field` test, so the two
rejections coincide behaviourally. -/
structure ExecutionDoc where
  id : Option Nat
  workflowId : Option String
  workflowName : Option String
  status : Option String
  startedAt : Option ℚ
  stoppedAt : Option ℚ
  data : Option DataField
deriving Repr, DecidableEq

/-- One flattened per-attempt record (`node_execution` dict in the source). -/
structure NodeExecution where
  node_name : String
  start_time : Option ℚ
  duration : Option ℚ
  status : String
  execution_index : Nat
deriving Repr, DecidableEq

/-- Flattening of one raw attempt (lines 428–449 of the source):
`start_timestamp = execution.get('startTime')`; the guard
`if start_timestamp:` is Python truthiness, so an absent field *and* the
value `0` both leave `start_time`/`duration` as `None`; otherwise
`node_start_time = fromtimestamp(start_timestamp / 1000, utc)` and
`node_duration = execution_time / 1000.0`. -/
def flattenAttempt (node_name : String) (e : RawAttempt) : NodeExecution :=
  let execution_time : Nat := e.executionTime.getD 0
  let execution_status : String := e.executionStatus.getD "unknown"
  let truthyStart : Bool :=
    match e.startTime with
    | some ts => ts ≠ 0
    | none => false
  if truthyStart then
    { node_name := node_name
      start_time := some ((e.startTime.getD 0 : ℚ) / 1000)
      duration := some ((execution_time : ℚ) / 1000)
      status := execution_status
      execution_index := e.executionIndex.getD 0 }
  else
    { node_name := node_name
      start_time := none
      duration := none
      status := execution_status
      execution_index := e.executionIndex.getD 0 }

/-- The flat `node_executions` list: iterate `run_data.items()` in order and
each node's attempt list in order (the two nested `for` loops). -/
def flatten_run_data (run_data : RunData) : List NodeExecution :=
  (run_data.map (fun p => p.2.map (flattenAttempt p.1))).flatten

/-- Grouping step `node_summary = defaultdict(list)`: append each flattened
record to its node's bucket, buckets ordered by first appearance. -/
def insertGrouped (acc : List (String × List NodeExecution)) (e : NodeExecution) :
    List (String × List NodeExecution) :=
  if acc.any (fun p => p.1 = e.node_name) then
    acc.map (fun p => if p.1 = e.node_name then (p.1, p.2 ++ [e]) else p)
  else
    acc ++ [(e.node_name, [e])]

/-- Group the flattened records by node name, first-seen order. -/
def groupByNode (execs : List NodeExecution) : List (String × List NodeExecution) :=
  execs.foldl insertGrouped []

/-- Per-node summary statistics (the `node_summary_stats[node_name]` dict). -/
structure NodeStats where
  total_executions : Nat
  total_time : ℚ
  average_time : ℚ
  min_time : ℚ
  max_time : ℚ
  successful_executions : Nat
  failed_executions : Nat
  success_rate : ℚ
  executions : List NodeExecution
deriving Repr, DecidableEq

/-- Python `min` over a nonempty list, 0 for the empty list (the source only
calls it guarded by `if durations`). -/
def listMin : List ℚ → ℚ
  | [] => 0
  | d :: ds => ds.foldl min d

/-- Python `max` over a nonempty list, 0 for the empty list. -/
def listMax : List ℚ → ℚ
  | [] => 0
  | d :: ds => ds.foldl max d

/-- Summary statistics of one node group (lines 459–473 of the source):
`durations` keeps the non-`None` durations; `total_time = sum(durations)`;
`average_time = sum/len if durations else 0`; `min`/`max` likewise
zero-floored; statuses counted over *all* attempts; `success_rate =
successes / len(statuses) * 100 if statuses else 0`. -/
def nodeStats (executions : List NodeExecution) : NodeStats :=
  let durations : List ℚ := executions.filterMap (fun ex => ex.duration)
  let statuses : List String := executions.map (fun ex => ex.status)
  let successes : Nat := (statuses.filter (fun s => s = "success")).length
  { total_executions := executions.length
    total_time := durations.sum
    average_time := if durations = [] then 0 else durations.sum / (durations.length : ℚ)
    min_time := listMin durations
    max_time := listMax durations
    successful_executions := successes
    failed_executions := (statuses.filter (fun s => s = "error")).length
    success_rate :=
      if statuses = [] then 0 else (successes : ℚ) / (statuses.length : ℚ) * 100
    executions := executions }

/-- The analysis dictionary returned by `analyze_looped_execution`
(plot-only passthrough fields `workflow_data`/`created_at` omitted). -/
structure Analysis where
  workflow_name : String
  status : String
  start_time : Option ℚ
  end_time : Option ℚ
  duration : Option ℚ
  has_detailed_data : Bool
  node_executions : List NodeExecution
  node_summary : List (String × NodeStats)
  total_nodes : Nat
  total_node_executions : Nat
deriving Repr, DecidableEq

/-- The nested guards of lines 416–421: `if 'data' in execution_data and
execution_data['data']`, then `if 'resultData' in data_field and 'runData'
in data_field['resultData']`; any failure yields no run data. -/
def extract_run_data (doc : ExecutionDoc) : RunData :=
  match doc.data with
  | none => []
  | some data_field =>
    match data_field.resultData with
    | none => []
    | some result_data =>
      match result_data.runData with
      | none => []
      | some run_data => run_data

/-- The analyzer entry point `N8nLoopedNodeAnalyzer.analyze_looped_execution` (lines 376–490). -/
def analyze_looped_execution (doc : ExecutionDoc) : Analysis :=
  let start_time := doc.startedAt
  let end_time := doc.stoppedAt
  let duration : Option ℚ :=
    match end_time, start_time with
    | some e, some s => some (e - s)
    | _, _ => none
  let node_executions := flatten_run_data (extract_run_data doc)
  let node_summary_stats :=
    (groupByNode node_executions).map (fun p => (p.1, nodeStats p.2))
  { workflow_name := doc.workflowName.getD "Unknown"
    status := doc.status.getD "unknown"
    start_time := start_time
    end_time := end_time
    duration := duration
    has_detailed_data := node_executions.length > 0
    node_executions := node_executions
    node_summary := node_summary_stats
    total_nodes := node_summary_stats.length
    total_node_executions := node_executions.length }

/-- One entry of the timeline mapping built by `build_execution_timeline`. -/
structure TimelineEntry where
  start_time : ℚ
  duration : ℚ
  status : String
deriving Repr, DecidableEq

/-- The per-attempt filter of `build_execution_timeline` (line 263):
`if execution['start_time'] and execution['duration']` — a `datetime` is
truthy exactly when present, a float is truthy when present *and* nonzero. -/
def timelineFilter (ex : NodeExecution) : Option TimelineEntry :=
  match ex.start_time, ex.duration with
  | some st, some d =>
    if d ≠ 0 then some { start_time := st, duration := d, status := ex.status } else none
  | _, _ => none

/-- Comparison used by `executions.sort(key=lambda x: x['start_time'])`. -/
def timelineLE (a b : TimelineEntry) : Prop := a.start_time ≤ b.start_time

instance : DecidableRel timelineLE := fun a b => inferInstanceAs (Decidable (_ ≤ _))

instance : IsTotal TimelineEntry timelineLE := ⟨fun a b => le_total a.start_time b.start_time⟩

instance : IsTrans TimelineEntry timelineLE := ⟨fun _ _ _ h h2 => le_trans h h2⟩

/-- The per-node body of `build_execution_timeline`: filter the node's
attempts, then sort by start time. -/
def timelineForNode (stats : NodeStats) : List TimelineEntry :=
  (stats.executions.filterMap timelineFilter).insertionSort timelineLE

/-- The builder `InteractivePlotViewer.build_execution_timeline` (lines 256–274): every
node of `node_summary` gets a key; its value is the sorted filtered list. -/
def build_execution_timeline (node_summary : List (String × NodeStats)) :
    List (String × List TimelineEntry) :=
  node_summary.map (fun p => (p.1, timelineForNode p.2))

/-- Relative start used by `create_hierarchical_timeline` (lines 189–201):
difference to the execution's start instant when that is present, else 0.
Instants are all UTC-aware in the model, so the timezone coercion of the
source is the identity. -/
def relative_start (exec_start : Option ℚ) (t : TimelineEntry) : ℚ :=
  match exec_start with
  | some s0 => t.start_time - s0
  | none => 0

/-- The fixed view catalogue `self.plots` of `InteractivePlotViewer`. -/
def plots : List String :=
  ["total_time", "avg_time", "execution_count", "success_rate", "hierarchical_timeline"]

/-- Forward navigation `next_plot`: `(self.current_plot + 1) % len(self.plots)`; Lean's `Int`
`%` (Euclidean) agrees with Python `%` for the positive modulus. -/
def next_plot (i : Int) : Int := (i + 1) % (plots.length : Int)

/-- Backward navigation `prev_plot`: `(self.current_plot - 1) % len(self.plots)`. -/
def prev_plot (i : Int) : Int := (i - 1) % (plots.length : Int)

/-- Observable effect of one key event on the viewer. -/
inductive KeyEffect where
  | redraw
  | closed
  | nothing
deriving Repr, DecidableEq

/-- The key handler `InteractivePlotViewer.on_key` (lines 288–295): left/a → `prev_plot`,
right/d → `next_plot`, q/escape → close; any other key falls through every
branch and changes nothing. -/
def on_key (key : String) (current_plot : Int) : Int × KeyEffect :=
  if key = "left" ∨ key = "a" then (prev_plot current_plot, KeyEffect.redraw)
  else if key = "right" ∨ key = "d" then (next_plot current_plot, KeyEffect.redraw)
  else if key = "q" ∨ key = "escape" then (current_plot, KeyEffect.closed)
  else (current_plot, KeyEffect.nothing)

/-! ## Helper lemmas -/

lemma foldl_min_mem (ds : List ℚ) (d : ℚ) : ds.foldl min d = d ∨ ds.foldl min d ∈ ds := by
  induction ds generalizing d with
  | nil => exact Or.inl rfl
  | cons a as ih =>
    rw [List.foldl_cons]
    rcases ih (min d a) with h | h
    · rcases min_choice d a with hm | hm
      · exact Or.inl (by rw [h, hm])
      · exact Or.inr (by rw [h, hm]; exact List.mem_cons_self a as)
    · exact Or.inr (List.mem_cons_of_mem a h)

lemma foldl_min_le_init (ds : List ℚ) (d : ℚ) : ds.foldl min d ≤ d := by
  induction ds generalizing d with
  | nil => exact le_refl d
  | cons a as ih =>
    rw [List.foldl_cons]
    exact le_trans (ih (min d a)) (min_le_left d a)

lemma foldl_min_le_mem (ds : List ℚ) (d x : ℚ) : x ∈ ds → ds.foldl min d ≤ x := by
  induction ds generalizing d with
  | nil => intro hx; cases hx
  | cons a as ih =>
    intro hx
    rw [List.foldl_cons]
    rcases List.mem_cons.mp hx with h | h
    · subst h
      exact le_trans (foldl_min_le_init as (min d x)) (min_le_right d x)
    · exact ih (min d a) h

lemma foldl_max_mem (ds : List ℚ) (d : ℚ) : ds.foldl max d = d ∨ ds.foldl max d ∈ ds := by
  induction ds generalizing d with
  | nil => exact Or.inl rfl
  | cons a as ih =>
    rw [List.foldl_cons]
    rcases ih (max d a) with h | h
    · rcases max_choice d a with hm | hm
      · exact Or.inl (by rw [h, hm])
      · exact Or.inr (by rw [h, hm]; exact List.mem_cons_self a as)
    · exact Or.inr (List.mem_cons_of_mem a h)

lemma foldl_le_max_init (ds : List ℚ) (d : ℚ) : d ≤ ds.foldl max d := by
  induction ds generalizing d with
  | nil => exact le_refl d
  | cons a as ih =>
    rw [List.foldl_cons]
    exact le_trans (le_max_left d a) (ih (max d a))

lemma foldl_le_max_mem (ds : List ℚ) (d x : ℚ) : x ∈ ds → x ≤ ds.foldl max d := by
  induction ds generalizing d with
  | nil => intro hx; cases hx
  | cons a as ih =>
    intro hx
    rw [List.foldl_cons]
    rcases List.mem_cons.mp hx with h | h
    · subst h
      exact le_trans (le_max_right d x) (foldl_le_max_init as (max d x))
    · exact ih (max d a) h

lemma listMin_mem (l : List ℚ) (hl : l ≠ []) : listMin l ∈ l := by
  cases l with
  | nil => exact absurd rfl hl
  | cons d ds =>
    rcases foldl_min_mem ds d with h | h
    · exact List.mem_cons.mpr (Or.inl (by simpa [listMin] using h))
    · exact List.mem_cons.mpr (Or.inr (by simpa [listMin] using h))

lemma listMin_le (l : List ℚ) (x : ℚ) (hx : x ∈ l) : listMin l ≤ x := by
  cases l with
  | nil => cases hx
  | cons d ds =>
    rcases List.mem_cons.mp hx with h | h
    · subst h; exact foldl_min_le_init ds x
    · exact foldl_min_le_mem ds d x h

lemma listMax_mem (l : List ℚ) (hl : l ≠ []) : listMax l ∈ l := by
  cases l with
  | nil => exact absurd rfl hl
  | cons d ds =>
    rcases foldl_max_mem ds d with h | h
    · exact List.mem_cons.mpr (Or.inl (by simpa [listMax] using h))
    · exact List.mem_cons.mpr (Or.inr (by simpa [listMax] using h))

lemma listMax_le (l : List ℚ) (x : ℚ) (hx : x ∈ l) : x ≤ listMax l := by
  cases l with
  | nil => cases hx
  | cons d ds =>
    rcases List.mem_cons.mp hx with h | h
    · subst h; exact foldl_le_max_init ds x
    · exact foldl_le_max_mem ds d x h

/-- The flattener emits exactly one record per raw attempt, so every raw
attempt counts, whatever its fields. -/
lemma flatten_run_data_length (rd : RunData) :
    (flatten_run_data rd).length = (rd.map (fun p => p.2.length)).sum := by
  induction rd with
  | nil => rfl
  | cons p ps ih =>
    simp only [flatten_run_data, List.map_cons, List.flatten_cons, List.length_append,
      List.length_map, List.sum_cons] at ih ⊢
    rw [ih]

/-- Characterisation of the timeline filter of line 263. -/
lemma timelineFilter_eq_some (ex : NodeExecution) (t : TimelineEntry) :
    timelineFilter ex = some t ↔
      ex.start_time = some t.start_time ∧ ex.duration = some t.duration ∧
        t.duration ≠ 0 ∧ ex.status = t.status := by
  obtain ⟨ts, td, tst⟩ := t
  cases hst : ex.start_time with
  | none => simp [timelineFilter, hst]
  | some st =>
    cases hd : ex.duration with
    | none => simp [timelineFilter, hst, hd]
    | some d =>
      simp only [timelineFilter, hst, hd, Option.some.injEq]
      split_ifs with h0
      · simp only [Option.some.injEq, TimelineEntry.mk.injEq]
        constructor
        · rintro ⟨rfl, rfl, rfl⟩
          exact ⟨rfl, rfl, h0, rfl⟩
        · rintro ⟨rfl, rfl, _, h4⟩
          exact ⟨rfl, rfl, h4⟩
      · simp only [reduceCtorEq, false_iff, not_and]
        rintro rfl rfl h3
        exact absurd (not_not.mp h0) h3


/-! ## Claim theorems -/

/-- The raw run-data of the worked example of the spec. -/
def attC1a : RawAttempt :=
  { startTime := some 1700000000000, executionTime := some 250,
    executionStatus := some "success", executionIndex := none }

def attC1b : RawAttempt :=
  { startTime := some 1700000000500, executionTime := some 100,
    executionStatus := some "error", executionIndex := none }

def runDataC1 : RunData := [("HTTP Request", [attC1a, attC1b])]

def docC1 : ExecutionDoc :=
  { id := some 1, workflowId := some "wf", workflowName := some "WF",
    status := some "success", startedAt := none, stoppedAt := none,
    data := some ⟨some ⟨some runDataC1⟩⟩ }

/-- C1: for the raw run-data `{"HTTP Request": [{startTime: 1700000000000,
executionTime: 250, executionStatus: "success"}, {startTime: 1700000000500,
executionTime: 100, executionStatus: "error"}]}`, the analysis produces for
node "HTTP Request" exactly count = 2, total_seconds = 0.35,
average_seconds = 0.175, success_count = 1, error_count = 1,
success_rate_pct = 50. -/
theorem C1_worked_example :
    (analyze_looped_execution docC1).node_summary.map
      (fun p => (p.1, p.2.total_executions, p.2.total_time, p.2.average_time,
        p.2.successful_executions, p.2.failed_executions, p.2.success_rate))
    = [("HTTP Request", 2, 35/100, 175/1000, 1, 1, 50)] := by
  simp [analyze_looped_execution, flatten_run_data, extract_run_data, docC1, attC1a, attC1b,
    runDataC1, flattenAttempt, groupByNode, insertGrouped, nodeStats, List.filter]
  norm_num

/-- C2: whenever any of the keys `data`, `data.resultData` or
`data.resultData.runData` is absent, the analysis returns
total_node_executions = 0 and an empty node_summary (and, being a total
function, raises nothing). -/
theorem C2_missing_run_data_yields_empty (doc : ExecutionDoc)
    (h : doc.data = none ∨
      ∃ df, doc.data = some df ∧ (df.resultData = none ∨
        ∃ rd, df.resultData = some rd ∧ rd.runData = none)) :
    (analyze_looped_execution doc).total_node_executions = 0 ∧
      (analyze_looped_execution doc).node_summary = [] := by
  have hrd : extract_run_data doc = [] := by
    rcases h with h | ⟨df, hdf, h⟩
    · simp [extract_run_data, h]
    · rcases h with h | ⟨rd, hrd2, h⟩
      · simp [extract_run_data, hdf, h]
      · simp [extract_run_data, hdf, hrd2, h]
  simp [analyze_looped_execution, hrd, flatten_run_data, groupByNode]

/-- A document with no `data` key at all. -/
def docC2 : ExecutionDoc :=
  { id := none, workflowId := none, workflowName := none, status := none,
    startedAt := none, stoppedAt := none, data := none }

theorem C2_missing_run_data_yields_empty_witness :
    (analyze_looped_execution docC2).total_node_executions = 0 ∧
      (analyze_looped_execution docC2).node_summary = [] :=
  C2_missing_run_data_yields_empty docC2 (Or.inl rfl)

/-- C8: the view catalogue has 5 entries; from index 0, five consecutive
`next_plot` steps return to 0; one `prev_plot` step from 0 lands on
`len - 1`; and both operations always stay inside `[0, len - 1]`. -/
theorem C8_cyclic_navigation :
    plots.length = 5 ∧
    next_plot (next_plot (next_plot (next_plot (next_plot 0)))) = 0 ∧
    prev_plot 0 = (plots.length : Int) - 1 ∧
    ∀ i : Int, 0 ≤ next_plot i ∧ next_plot i < (plots.length : Int) ∧
      0 ≤ prev_plot i ∧ prev_plot i < (plots.length : Int) := by
  refine ⟨rfl, by decide, by decide, fun i => ⟨?_, ?_, ?_, ?_⟩⟩
  · exact Int.emod_nonneg (i + 1) (by decide)
  · exact Int.emod_lt_of_pos (i + 1) (by decide)
  · exact Int.emod_nonneg (i - 1) (by decide)
  · exact Int.emod_lt_of_pos (i - 1) (by decide)

/-- Success rate of a nonempty group: successes over the *total* attempt
count, times 100. -/
lemma success_rate_eq (execs : List NodeExecution) (h : execs ≠ []) :
    (nodeStats execs).success_rate =
      ((nodeStats execs).successful_executions : ℚ) /
        ((nodeStats execs).total_executions : ℚ) * 100 := by
  simp only [nodeStats]
  rw [if_neg (by simpa using h)]
  simp [List.length_map]

/-- C5: per node group, total/average/min/max are computed only over the
duration-defined attempts; with none of them the four aggregates are all 0;
otherwise average = total / number of duration-defined attempts and min/max
are attained on that set. -/
theorem C5_zero_floor_aggregates (execs : List NodeExecution) :
    (nodeStats execs).total_time = (execs.filterMap (fun ex => ex.duration)).sum ∧
    (execs.filterMap (fun ex => ex.duration) = [] →
      (nodeStats execs).total_time = 0 ∧ (nodeStats execs).average_time = 0 ∧
      (nodeStats execs).min_time = 0 ∧ (nodeStats execs).max_time = 0) ∧
    (execs.filterMap (fun ex => ex.duration) ≠ [] →
      (nodeStats execs).average_time =
        (nodeStats execs).total_time /
          ((execs.filterMap (fun ex => ex.duration)).length : ℚ) ∧
      (nodeStats execs).min_time ∈ execs.filterMap (fun ex => ex.duration) ∧
      (∀ d ∈ execs.filterMap (fun ex => ex.duration), (nodeStats execs).min_time ≤ d) ∧
      (nodeStats execs).max_time ∈ execs.filterMap (fun ex => ex.duration) ∧
      (∀ d ∈ execs.filterMap (fun ex => ex.duration), d ≤ (nodeStats execs).max_time)) := by
  refine ⟨rfl, fun h => ?_, fun h => ?_⟩
  · simp [nodeStats, h, listMin, listMax]
  · refine ⟨?_, listMin_mem _ h, fun d hd => listMin_le _ d hd,
      listMax_mem _ h, fun d hd => listMax_le _ d hd⟩
    simp [nodeStats, h]

/-- A duration-defined attempt used to instantiate the aggregate claims. -/
def eW5 : NodeExecution :=
  { node_name := "A", start_time := some 1, duration := some 2,
    status := "success", execution_index := 0 }

theorem C5_zero_floor_aggregates_witness :
    ((nodeStats ([] : List NodeExecution)).average_time = 0) ∧
    ((nodeStats [eW5]).average_time =
      (nodeStats [eW5]).total_time /
        (([eW5].filterMap (fun ex => ex.duration)).length : ℚ)) :=
  ⟨((C5_zero_floor_aggregates []).2.1 rfl).2.1,
    ((C5_zero_floor_aggregates [eW5]).2.2 (by decide)).1⟩

/-- C6: per node group, success_rate lies in [0, 100]; for a nonempty group
it equals success_count / total attempt count * 100 (not the
duration-defined count), and it is 0 for an empty group. -/
theorem C6_success_rate_bounds (execs : List NodeExecution) :
    0 ≤ (nodeStats execs).success_rate ∧ (nodeStats execs).success_rate ≤ 100 ∧
    (execs ≠ [] →
      (nodeStats execs).success_rate =
        ((nodeStats execs).successful_executions : ℚ) /
          ((nodeStats execs).total_executions : ℚ) * 100) ∧
    (execs = [] → (nodeStats execs).success_rate = 0) := by
  by_cases hE : execs = []
  · subst hE
    refine ⟨?_, ?_, fun h => absurd rfl h, fun _ => ?_⟩ <;> simp [nodeStats]
  · have hlen : 0 < ((nodeStats execs).total_executions : ℚ) := by
      have hpos : 0 < execs.length := List.length_pos.mpr hE
      simp only [nodeStats]
      exact_mod_cast hpos
    have hle : ((nodeStats execs).successful_executions : ℚ) ≤
        ((nodeStats execs).total_executions : ℚ) := by
      simp only [nodeStats]
      have hf := List.length_filter_le (fun s => decide (s = "success"))
        (execs.map (fun ex => ex.status))
      have hm : (execs.map (fun ex => ex.status)).length = execs.length :=
        List.length_map _ _
      exact_mod_cast hf.trans_eq hm
    have hr := success_rate_eq execs hE
    refine ⟨?_, ?_, fun _ => hr, fun h => absurd h hE⟩
    · rw [hr]
      positivity
    · rw [hr]
      have h1 : ((nodeStats execs).successful_executions : ℚ) /
          ((nodeStats execs).total_executions : ℚ) ≤ 1 := (div_le_one hlen).mpr hle
      calc ((nodeStats execs).successful_executions : ℚ) /
            ((nodeStats execs).total_executions : ℚ) * 100 ≤ 1 * 100 :=
              mul_le_mul_of_nonneg_right h1 (by norm_num)
        _ = 100 := one_mul 100

theorem C6_success_rate_bounds_witness :
    (0 ≤ (nodeStats [eW5]).success_rate ∧
      (nodeStats [eW5]).success_rate =
        ((nodeStats [eW5]).successful_executions : ℚ) /
          ((nodeStats [eW5]).total_executions : ℚ) * 100) ∧
    (nodeStats ([] : List NodeExecution)).success_rate = 0 :=
  ⟨⟨(C6_success_rate_bounds [eW5]).1,
      (C6_success_rate_bounds [eW5]).2.2.1 (by decide)⟩,
    (C6_success_rate_bounds []).2.2.2 rfl⟩

/-- C7: a raw attempt with no start timestamp flattens to a record whose
start_instant and duration are both undefined, while the flattener still
emits exactly one record per raw attempt, so the attempt keeps counting. -/
theorem C7_missing_start_undefined_pair (node : String) (raw : RawAttempt)
    (h : raw.startTime = none) :
    ((flattenAttempt node raw).start_time = none ∧
      (flattenAttempt node raw).duration = none) ∧
    ∀ rd : RunData, (flatten_run_data rd).length = (rd.map (fun p => p.2.length)).sum := by
  refine ⟨?_, flatten_run_data_length⟩
  constructor <;> simp [flattenAttempt, h]

/-- A raw attempt whose `startTime` key is absent. -/
def rawC7 : RawAttempt :=
  { startTime := none, executionTime := some 250,
    executionStatus := some "success", executionIndex := none }

theorem C7_missing_start_undefined_pair_witness :
    (((flattenAttempt "HTTP Request" rawC7).start_time = none ∧
      (flattenAttempt "HTTP Request" rawC7).duration = none) ∧
    ∀ rd : RunData, (flatten_run_data rd).length = (rd.map (fun p => p.2.length)).sum) :=
  C7_missing_start_undefined_pair "HTTP Request" rawC7 rfl

/-- C10: a raw attempt whose `startTime` is present but equal to 0 is
treated as missing: both start_instant and duration are undefined (so it is
excluded from the duration aggregates and from the timeline), even with an
`executionTime` supplied, while the attempt still counts. -/
theorem C10_zero_start_treated_as_missing (node : String) (raw : RawAttempt) (t : Nat)
    (h0 : raw.startTime = some 0) (ht : raw.executionTime = some t) :
    (flattenAttempt node raw).start_time = none ∧
    (flattenAttempt node raw).duration = none ∧
    (nodeStats [flattenAttempt node raw]).total_time = 0 ∧
    timelineForNode (nodeStats [flattenAttempt node raw]) = [] ∧
    (flatten_run_data [(node, [raw])]).length = 1 := by
  have h1 : (flattenAttempt node raw).start_time = none := by simp [flattenAttempt, h0]
  have h2 : (flattenAttempt node raw).duration = none := by simp [flattenAttempt, h0]
  refine ⟨h1, h2, ?_, ?_, ?_⟩
  · simp [nodeStats, h2]
  · simp [timelineForNode, timelineFilter, nodeStats, h1, List.insertionSort]
  · simp [flatten_run_data]

/-- A raw attempt carrying the epoch instant 0 and a nonzero duration. -/
def rawC10 : RawAttempt :=
  { startTime := some 0, executionTime := some 250,
    executionStatus := some "success", executionIndex := none }

theorem C10_zero_start_treated_as_missing_witness :
    (flattenAttempt "HTTP Request" rawC10).start_time = none ∧
    (flattenAttempt "HTTP Request" rawC10).duration = none ∧
    (nodeStats [flattenAttempt "HTTP Request" rawC10]).total_time = 0 ∧
    timelineForNode (nodeStats [flattenAttempt "HTTP Request" rawC10]) = [] ∧
    (flatten_run_data [("HTTP Request", [rawC10])]).length = 1 :=
  C10_zero_start_treated_as_missing "HTTP Request" rawC10 250 rfl rfl

/-- C3 (amended): the timeline list of a node consists exactly of that
node's attempts having a defined start_instant and a defined *nonzero*
duration (the truthiness test of line 263 drops a zero duration), sorted
ascending by start_instant, so the relative-start sequence is
non-decreasing for any reference instant. -/
theorem C3_timeline_sorted_nonzero_filter (stats : NodeStats) (t0 : Option ℚ) :
    List.Pairwise (fun a b : TimelineEntry => relative_start t0 a ≤ relative_start t0 b)
      (timelineForNode stats) ∧
    ∀ t : TimelineEntry, t ∈ timelineForNode stats ↔
      ∃ e ∈ stats.executions, e.start_time = some t.start_time ∧
        e.duration = some t.duration ∧ t.duration ≠ 0 ∧ e.status = t.status := by
  constructor
  · have hs : List.Sorted timelineLE (timelineForNode stats) :=
      List.sorted_insertionSort timelineLE _
    refine List.Pairwise.imp ?_ hs
    intro a b hab
    cases t0 with
    | none => simp [relative_start]
    | some s0 => simpa [relative_start] using sub_le_sub_right hab s0
  · intro t
    rw [timelineForNode, (List.perm_insertionSort timelineLE _).mem_iff]
    simp only [List.mem_filterMap]
    constructor
    · rintro ⟨e, he, hf⟩
      exact ⟨e, he, (timelineFilter_eq_some e t).mp hf⟩
    · rintro ⟨e, he, hcond⟩
      exact ⟨e, he, (timelineFilter_eq_some e t).mpr hcond⟩

theorem C3_timeline_sorted_nonzero_filter_witness :
    List.Pairwise
      (fun a b : TimelineEntry => relative_start (some 0) a ≤ relative_start (some 0) b)
      (timelineForNode (nodeStats [eW5])) :=
  (C3_timeline_sorted_nonzero_filter (nodeStats [eW5]) (some 0)).1

/-- An attempt with `startTime` present and `executionTime` 0: it flattens
to a defined start instant and a defined zero duration. -/
def attC3 : RawAttempt :=
  { startTime := some 1000, executionTime := some 0,
    executionStatus := some "success", executionIndex := none }

def docC3 : ExecutionDoc :=
  { id := none, workflowId := none, workflowName := none, status := none,
    startedAt := none, stoppedAt := none,
    data := some ⟨some ⟨some [("A", [attC3])]⟩⟩ }

/-- C3 counterexample: the single attempt of node "A" has start_instant and
duration both defined (duration = 0), yet the timeline maps "A" to the
empty list — a defined zero duration is dropped, refuting the claim that it
still qualifies as a sample. -/
theorem C3_counterexample :
    (analyze_looped_execution docC3).node_summary.map
        (fun p => p.2.executions.map (fun e => (e.start_time, e.duration))) =
      [[(some 1, some 0)]] ∧
    build_execution_timeline (analyze_looped_execution docC3).node_summary =
      [("A", [])] := by
  constructor
  · norm_num [analyze_looped_execution, extract_run_data, docC3, flatten_run_data, attC3,
      flattenAttempt, groupByNode, insertGrouped, nodeStats]
  · norm_num [analyze_looped_execution, extract_run_data, docC3, flatten_run_data, attC3,
      flattenAttempt, groupByNode, insertGrouped, nodeStats, build_execution_timeline,
      timelineForNode, timelineFilter, List.insertionSort]

/-- C4 (amended): `build_execution_timeline` keeps *every* node of the
summary as a key — a node whose qualifying set is empty is not omitted but
mapped to the empty list. -/
theorem C4_empty_nodes_keep_their_key (ns : List (String × NodeStats)) :
    (build_execution_timeline ns).map Prod.fst = ns.map Prod.fst ∧
    ∀ p ∈ ns, (∀ e ∈ p.2.executions,
        e.start_time = none ∨ e.duration = none ∨ e.duration = some 0) →
      (p.1, ([] : List TimelineEntry)) ∈ build_execution_timeline ns := by
  constructor
  · simp [build_execution_timeline, List.map_map, Function.comp]
  · intro p hp hall
    have hnil : timelineForNode p.2 = [] := by
      rw [timelineForNode]
      have hfm : p.2.executions.filterMap timelineFilter = [] := by
        rw [List.filterMap_eq_nil_iff]
        intro e he
        rcases hall e he with h | h | h
        · simp [timelineFilter, h]
        · cases hst : e.start_time <;> simp [timelineFilter, hst, h]
        · cases hst : e.start_time <;> simp [timelineFilter, hst, h]
      rw [hfm]
      rfl
    exact List.mem_map.mpr ⟨p, hp, by rw [hnil]⟩

/-- A node execution with no start and no duration. -/
def eW4 : NodeExecution :=
  { node_name := "B", start_time := none, duration := none,
    status := "unknown", execution_index := 0 }

def nsW4 : List (String × NodeStats) := [("B", nodeStats [eW4])]

theorem C4_empty_nodes_keep_their_key_witness :
    ("B", ([] : List TimelineEntry)) ∈ build_execution_timeline nsW4 :=
  (C4_empty_nodes_keep_their_key nsW4).2 ("B", nodeStats [eW4])
    (List.mem_singleton_self _) (by decide)

def docC4 : ExecutionDoc :=
  { id := none, workflowId := none, workflowName := none, status := none,
    startedAt := none, stoppedAt := none,
    data := some ⟨some ⟨some [("B", [rawC7])]⟩⟩ }

/-- C4 counterexample: node "B" has a single attempt with no start
timestamp, hence zero qualifying attempts, yet "B" still appears as a key
of the timeline mapping (with an empty list), refuting the claimed
omission. -/
theorem C4_counterexample :
    (analyze_looped_execution docC4).node_summary.map
        (fun p => p.2.executions.map (fun e => (e.start_time, e.duration))) =
      [[(none, none)]] ∧
    (build_execution_timeline (analyze_looped_execution docC4).node_summary).map Prod.fst =
      ["B"] := by
  constructor
  · norm_num [analyze_looped_execution, extract_run_data, docC4, flatten_run_data, rawC7,
      flattenAttempt, groupByNode, insertGrouped, nodeStats]
  · norm_num [analyze_looped_execution, extract_run_data, docC4, flatten_run_data, rawC7,
      flattenAttempt, groupByNode, insertGrouped, nodeStats, build_execution_timeline,
      timelineForNode, timelineFilter, List.insertionSort]

/-- C9 counterexample: "total_time" is a member of the view catalogue, yet
feeding it to the key handler from index 2 leaves the index at 2 with no
effect — there is no select-by-view-id jump (its index would be 0). -/
theorem C9_counterexample :
    "total_time" ∈ plots ∧ plots.indexOf "total_time" = 0 ∧
      on_key "total_time" 2 = (2, KeyEffect.nothing) := by
  decide

/-- C9 (amended): the state machine offers no `select(view_id)` operation;
the only selectors are left/a, right/d, q/escape, and every other key —
in particular every catalogue view id — leaves the current index unchanged
with no reported condition. -/
theorem C9_no_select_by_view_id (i : Int) :
    (∀ key : String,
      ¬ (key = "left" ∨ key = "a" ∨ key = "right" ∨ key = "d" ∨
          key = "q" ∨ key = "escape") →
      on_key key i = (i, KeyEffect.nothing)) ∧
    ∀ key ∈ plots, on_key key i = (i, KeyEffect.nothing) := by
  constructor
  · intro key h
    simp only [not_or] at h
    obtain ⟨h1, h2, h3, h4, h5, h6⟩ := h
    simp [on_key, h1, h2, h3, h4, h5, h6]
  · intro key hk
    have hp : key = "total_time" ∨ key = "avg_time" ∨ key = "execution_count" ∨
        key = "success_rate" ∨ key = "hierarchical_timeline" := by
      simpa [plots] using hk
    rcases hp with rfl | rfl | rfl | rfl | rfl <;> rfl

theorem C9_no_select_by_view_id_witness :
    on_key "x" 7 = (7, KeyEffect.nothing) ∧
      on_key "success_rate" 7 = (7, KeyEffect.nothing) :=
  ⟨(C9_no_select_by_view_id 7).1 "x" (by decide),
    (C9_no_select_by_view_id 7).2 "success_rate" (by decide)⟩
